import Mathlib

/-!
Verification of the credential and session management subsystem of the
circles repository, embedded shallowly from the repository's sources
(BCRYPT_SETUP.md hashing code, src/services/authService.ts, lib/api.ts)
and, where the backend service code is not part of the repository
snapshot, modelled from the specification.
-/

set_option maxHeartbeats 1000000

namespace Circles

/-- Abstract interface to the external cryptographic library calls used by
the hashing code in BCRYPT_SETUP.md: `pwd_context.hash` (which can raise,
modelled as `Option`), `pwd_context.verify`, and `hashlib.sha256(...).hexdigest()`
(total, returns a hex string). -/
structure HashPrims where
  bcryptHash : String → Option String
  bcryptVerify : String → String → Bool
  sha256Hex : String → String

/-- The string actually handed to the first `pwd_context.hash` call of
`create_password_hash`: the SHA-256 hexdigest when the UTF-8 encoding of the
password exceeds 72 bytes, the password itself otherwise. -/
def primitiveHashInput (P : HashPrims) (password : String) : String :=
  if password.utf8ByteSize > 72 then P.sha256Hex password else password

/-- `create_password_hash` from src/BCRYPT_SETUP.md (lines 72-86): inside the
`try`, passwords whose UTF-8 encoding exceeds 72 bytes are pre-reduced with
SHA-256 before bcrypt; on any exception from the first hash attempt, the
`except` branch falls back to SHA-256-reducing the password and hashing that;
an exception from the fallback hash propagates (modelled as `Except.error`). -/
def create_password_hash (P : HashPrims) (password : String) : Except String String :=
  match P.bcryptHash (primitiveHashInput P password) with
  | some h => Except.ok h
  | none =>
      match P.bcryptHash (P.sha256Hex password) with
      | some h => Except.ok h
      | none => Except.error ("password hashing failed")

/-- Modelled from the spec: the verifying counterpart of
`create_password_hash` is not under src/ (only the hashing side is quoted in
BCRYPT_SETUP.md); spec §4.1 requires that "the same reduction must be applied
consistently at verification time". -/
def verify_password (P : HashPrims) (password stored : String) : Bool :=
  if password.utf8ByteSize > 72 then P.bcryptVerify (P.sha256Hex password) stored
  else P.bcryptVerify password stored

/-- A concrete instantiation of the primitives mirroring the real library's
failure mode: bcrypt raises on NUL bytes and on inputs longer than 72 bytes,
and the SHA-256 hexdigest is a 64-character ASCII string (a fixed stand-in
digest value suffices for the control-flow facts proved here). -/
def nulFailPrims : HashPrims where
  bcryptHash s :=
    if s.data.contains (Char.ofNat 0) || s.utf8ByteSize > 72 then none
    else some (("bc$") ++ s)
  bcryptVerify s h := h == ("bc$") ++ s
  sha256Hex _ := String.mk (List.replicate 64 ('a'))

/-- A one-character password consisting of a NUL byte: the bcrypt primitive
of `nulFailPrims` fails on it (malformed input). -/
def nulPassword : String := String.mk [Char.ofNat 0]

/-- The stand-in hexdigest value produced by `nulFailPrims.sha256Hex`. -/
def standInDigest : String := String.mk (List.replicate 64 ('a'))

/-- A 73-byte password (73 ASCII characters), strictly longer than the
72-byte bcrypt limit. -/
def longPassword : String := String.mk (List.replicate 73 ('a'))

/-- Lockout threshold: 5 consecutive failures (README_AUTH.md, spec §4.2). -/
def LOCKOUT_THRESHOLD : Nat := 5

/-- Lockout duration: 30 minutes (README_AUTH.md, spec §4.2). -/
def LOCKOUT_DURATION_MINUTES : Nat := 30

/-- The lockout-relevant part of a `core.account` row (README_AUTH.md
schema: `failed_login_attempts`, `locked_until`, `password_hash`,
`last_login_at`); time is in minutes from an arbitrary epoch, per the
injectable clock of spec §6. -/
structure Account where
  failed_count : Nat
  locked_until : Option Nat
  password_hash : String
  last_login_at : Option Nat
deriving DecidableEq

/-- Modelled from the spec: the lockout derivation of §4.3 (`Locked` iff
`failed_count` reached the threshold and `now < locked_until`); the
backend service code (auth_service.py) is not part of the repository
snapshot. An account is locked when its `locked_until` lies in the future. -/
def isLocked (a : Account) (now : Nat) : Bool :=
  match a.locked_until with
  | some t => decide (now < t)
  | none => false

/-- Modelled from the spec: §4.3 `Expired-Lock` state — `locked_until` is
set but has passed. -/
def lockExpired (a : Account) (now : Nat) : Bool :=
  match a.locked_until with
  | some t => decide (t ≤ now)
  | none => false

/-- Modelled from the spec: `recordFailedLogin` of §4.2 — atomically
increments `failed_count` and, when it crosses the threshold (5), sets
`locked_until = now + 30m`. -/
def recordFailedLogin (now : Nat) (a : Account) : Account :=
  { a with
    failed_count := a.failed_count + 1,
    locked_until :=
      if LOCKOUT_THRESHOLD ≤ a.failed_count + 1
      then some (now + LOCKOUT_DURATION_MINUTES)
      else a.locked_until }

/-- Modelled from the spec: `recordSuccessfulLogin` of §4.2 — atomically
resets `failed_count` to 0, clears `locked_until`, sets `last_login_at`. -/
def recordSuccessfulLogin (now : Nat) (a : Account) : Account :=
  { a with failed_count := 0, locked_until := none, last_login_at := some now }

/-- Outcome of a login attempt, following the error taxonomy of spec §7. -/
inductive LoginResult where
  | success
  | invalidCredentials
  | accountLocked
deriving DecidableEq

/-- Modelled from the spec: §4.3 — a lock that has expired is treated as a
fresh window, the counter is reset before the attempt is processed. -/
def freshWindow (a : Account) (now : Nat) : Account :=
  if lockExpired a now then { a with failed_count := 0, locked_until := none } else a

/-- Modelled from the spec: the login row of the §4.6 decision table and the
§4.3 transitions — a locked account is rejected immediately without
credential verification; an expired lock is treated as a fresh window;
otherwise the stored hash is verified and the counters updated. The backend
service code is not part of the repository snapshot. -/
def login (P : HashPrims) (now : Nat) (a : Account) (password : String) :
    Account × LoginResult :=
  if isLocked a now then (a, LoginResult.accountLocked)
  else if verify_password P password (freshWindow a now).password_hash then
    (recordSuccessfulLogin now (freshWindow a now), LoginResult.success)
  else
    (recordFailedLogin now (freshWindow a now), LoginResult.invalidCredentials)

/-- Account state after a sequence of login attempts with password `pw` at
the given times. -/
def failedAttempts (P : HashPrims) (pw : String) (ts : List Nat) (a : Account) : Account :=
  ts.foldl (fun acc t => (login P t acc pw).1) a

/-- Account state after a serialized schedule of atomic
`recordFailedLogin` operations (one list element per atomic store
mutation). -/
def runFailedLogins (ts : List Nat) (a : Account) : Account :=
  ts.foldl (fun acc t => recordFailedLogin t acc) a

/-- All interleavings of two sequences of atomic operations, each operation
tagged by its timestamp. -/
def interleavings : List Nat → List Nat → List (List Nat)
  | [], ys => [ys]
  | x :: xs, [] => [x :: xs]
  | x :: xs, y :: ys =>
      (interleavings xs (y :: ys)).map (fun l => x :: l) ++
      (interleavings (x :: xs) ys).map (fun l => y :: l)
termination_by xs ys => xs.length + ys.length

/-- Session lifetime in minutes (README_AUTH.md: access token 30 minutes). -/
def SESSION_LIFETIME_MINUTES : Nat := 30

/-- A `core.user_session` row (README_AUTH.md schema): owning account,
opaque session and refresh tokens (modelled as numbers drawn from a
freshness counter), `is_active`, `expires_at`, `last_activity_at`. -/
structure Session where
  accountId : Nat
  sessionToken : Nat
  refreshToken : Nat
  isActive : Bool
  expiresAt : Nat
  lastActivityAt : Nat
deriving DecidableEq

/-- The session store: the `core.user_session` rows plus the source of
fresh, never-before-used token values (modelling "cryptographically random,
unguessable" tokens by a strictly increasing counter). -/
structure SessionState where
  sessions : List Session
  nextToken : Nat
deriving DecidableEq

/-- The empty session store. -/
def initialSessionState : SessionState :=
  { sessions := [], nextToken := 0 }

/-- Modelled from the spec: Session Manager `issue` of §4.4 — persists a
new active row with two fresh tokens; the backend session code is not part
of the repository snapshot. -/
def issueSession (st : SessionState) (accountId now : Nat) : SessionState × Session :=
  let s : Session :=
    { accountId := accountId
      sessionToken := st.nextToken
      refreshToken := st.nextToken + 1
      isActive := true
      expiresAt := now + SESSION_LIFETIME_MINUTES
      lastActivityAt := now }
  ({ sessions := s :: st.sessions, nextToken := st.nextToken + 2 }, s)

/-- Update `last_activity_at` on the row holding the given session token. -/
def touchSessions (l : List Session) (now tok : Nat) : List Session :=
  l.map (fun r => if r.sessionToken == tok then { r with lastActivityAt := now } else r)

/-- Set `is_active = false` on the row holding the given refresh token. -/
def deactivateByRefresh (l : List Session) (rt : Nat) : List Session :=
  l.map (fun r => if r.refreshToken == rt then { r with isActive := false } else r)

/-- Set `is_active = false` on the row holding the given session token. -/
def deactivateBySession (l : List Session) (tok : Nat) : List Session :=
  l.map (fun r => if r.sessionToken == tok then { r with isActive := false } else r)

/-- Modelled from the spec: Session Manager `authenticate` of §4.4 —
rejects if not found, inactive, or expired; updates `last_activity_at` on
success. Returns the updated store and the authenticated account id. -/
def authenticate (st : SessionState) (now tok : Nat) : SessionState × Option Nat :=
  match st.sessions.find?
      (fun s => s.sessionToken == tok && s.isActive && decide (now < s.expiresAt)) with
  | some s =>
      ({ st with sessions := touchSessions st.sessions now tok }, some s.accountId)
  | none => (st, none)

/-- Result of a refresh call (spec §4.4 / §7). -/
inductive RefreshOutcome where
  | rotated : Session → RefreshOutcome
  | invalidOrReusedToken
deriving DecidableEq

/-- Modelled from the spec: Session Manager `refresh` of §4.4 — rotates
both tokens atomically: in the one operation, the row holding the presented
refresh token is set inactive and a new active row with two fresh tokens is
issued; an unknown or already-rotated token is rejected with
`invalidOrReusedToken` and the store is left unchanged. -/
def refreshSession (st : SessionState) (now rt : Nat) : SessionState × RefreshOutcome :=
  match st.sessions.find? (fun s => s.refreshToken == rt && s.isActive) with
  | none => (st, RefreshOutcome.invalidOrReusedToken)
  | some s =>
      let n : Session :=
        { accountId := s.accountId
          sessionToken := st.nextToken
          refreshToken := st.nextToken + 1
          isActive := true
          expiresAt := now + SESSION_LIFETIME_MINUTES
          lastActivityAt := now }
      ({ sessions := n :: deactivateByRefresh st.sessions rt,
          nextToken := st.nextToken + 2 },
        RefreshOutcome.rotated n)

/-- Modelled from the spec: Session Manager `revoke` of §4.4 — sets
`is_active = false` on the row holding the given session token. -/
def revokeSession (st : SessionState) (tok : Nat) : SessionState :=
  { st with sessions := deactivateBySession st.sessions tok }

/-- Session-store states reachable from the empty store through the
Session Manager operations. -/
inductive Reachable : SessionState → Prop where
  | init : Reachable initialSessionState
  | issue {st : SessionState} (accountId now : Nat) :
      Reachable st → Reachable (issueSession st accountId now).1
  | refresh {st : SessionState} (now rt : Nat) :
      Reachable st → Reachable (refreshSession st now rt).1
  | revoke {st : SessionState} (tok : Nat) :
      Reachable st → Reachable (revokeSession st tok)
  | touch {st : SessionState} (now tok : Nat) :
      Reachable st → Reachable (authenticate st now tok).1

/-- Token hygiene invariant of the session store: every stored token is
below the freshness counter, the two tokens of a row differ, and tokens of
distinct rows never collide. -/
def TokensOk (st : SessionState) : Prop :=
  (∀ s ∈ st.sessions,
    s.sessionToken < st.nextToken ∧ s.refreshToken < st.nextToken ∧
    s.sessionToken ≠ s.refreshToken) ∧
  st.sessions.Pairwise (fun a b =>
    a.sessionToken ≠ b.sessionToken ∧ a.refreshToken ≠ b.refreshToken ∧
    a.sessionToken ≠ b.refreshToken ∧ a.refreshToken ≠ b.sessionToken)

/-- A concrete reachable store: one session issued for account 7 at time 0
(session token 0, refresh token 1). -/
def demoState : SessionState := (issueSession initialSessionState 7 0).1

/-- The `auth_state` entry stored in the client-context session during
phase 1 of the external-provider handshake (README_EXTERNAL_AUTH.md), with
its expiry per spec §4.5 (short-lived, e.g. 10 minutes). -/
structure StateEntry where
  value : String
  expiresAt : Nat
deriving DecidableEq

/-- Result of the phase-2 external callback (spec §4.5 / §7). -/
inductive CallbackOutcome where
  | invalidState
  | completed : String → CallbackOutcome
deriving DecidableEq

/-- Modelled from the spec and the verification snippet quoted in
README_EXTERNAL_AUTH.md (lines 218-253): the stored `auth_state` must exist
for this client context, exactly match the returned state, and be
unexpired; the backend endpoint code is not part of the repository
snapshot. -/
def verifyCallbackState (stored : Option StateEntry) (state : String) (now : Nat) : Bool :=
  match stored with
  | none => false
  | some e => state == e.value && decide (now < e.expiresAt)

/-- Modelled from the spec: the phase-2 callback of §4.5 — on state
verification failure the whole flow fails with `invalidState` and the
provider token exchange (the `exchange` argument) is never consulted; on
success the authorization code is exchanged with the provider. -/
def externalCallback (exchange : String → String) (stored : Option StateEntry)
    (code state : String) (now : Nat) : CallbackOutcome :=
  if verifyCallbackState stored state now then CallbackOutcome.completed (exchange code)
  else CallbackOutcome.invalidState

/-- The browser localStorage, modelled as an association list. -/
abbrev LocalStorage := List (String × String)

/-- `localStorage.getItem`: the value bound to the first occurrence of the
key, or `none` (JavaScript `null`). -/
def getItem : LocalStorage → String → Option String
  | [], _ => none
  | p :: l, k => if p.1 == k then some p.2 else getItem l k

/-- `localStorage.removeItem`: drops every binding of the key. -/
def removeItem : LocalStorage → String → LocalStorage
  | [], _ => []
  | p :: l, k => if p.1 == k then removeItem l k else p :: removeItem l k

/-- `localStorage.setItem`: binds the key to the value. -/
def setItem (store : LocalStorage) (k v : String) : LocalStorage :=
  (k, v) :: removeItem store k

/-- An HTTP request emitted by the client. -/
structure HttpRequest where
  method : String
  url : String
deriving DecidableEq

/-- `AuthService.logout` from src/src/services/authService.ts (lines
92-102): removes the localStorage entries `access_token`, `refresh_token`
and `user`; it performs no network call, so the list of requests it emits
is empty. -/
def logout (store : LocalStorage) : LocalStorage × List HttpRequest :=
  (removeItem (removeItem (removeItem store ("access_token")) ("refresh_token")) ("user"), [])

/-- Server-side effect of a list of client-emitted requests: each request
is processed in order by the backend transition function. -/
def serverAfter (handle : SessionState → HttpRequest → SessionState)
    (server : SessionState) (reqs : List HttpRequest) : SessionState :=
  reqs.foldl handle server

/-- `AuthService.storeTokens` from src/src/services/authService.ts (lines
150-153): writes exactly the keys `access_token` and `refresh_token`. -/
def storeTokens (store : LocalStorage) (accessToken refreshToken : String) : LocalStorage :=
  setItem (setItem store ("access_token") accessToken) ("refresh_token") refreshToken

/-- The per-request config of the shared axios client, restricted to the
Authorization header. -/
structure RequestConfig where
  authorization : Option String
deriving DecidableEq

/-- The request interceptor from src/lib/api.ts (lines 16-28): reads
`auth_token` from localStorage and attaches `Authorization: Bearer <token>`
only when the value is present and non-empty (JavaScript truthiness of the
`getItem` result). -/
def requestInterceptor (store : LocalStorage) (config : RequestConfig) : RequestConfig :=
  match getItem store ("auth_token") with
  | some t =>
      if t ≠ ("") then { config with authorization := some (("Bearer ") ++ t) } else config
  | none => config

end Circles

namespace Circles

/-- C1 counterexample: for the password `nulPassword` the underlying bcrypt
primitive fails on the input handed to the first hash attempt, and yet
`create_password_hash` returns a hash value (`Except.ok`), not the generic
error: the `except` branch of the source silently recovers by switching to
the SHA-256 reduction before hashing. -/
theorem hash_failure_not_failed_closed :
    nulFailPrims.bcryptHash (primitiveHashInput nulFailPrims nulPassword) = none ∧
    create_password_hash nulFailPrims nulPassword = Except.ok (("bc$") ++ standInDigest) := by
  exact ⟨rfl, rfl⟩

/-- C1 amended: when the underlying primitive fails on the first hash
attempt, `create_password_hash` does not fail closed; it retries with the
SHA-256 hexdigest reduction of the password and returns that fallback hash
whenever the retry succeeds, and only returns the generic error when the
fallback hash also fails. -/
theorem hash_failure_falls_back_to_sha256 (P : HashPrims) (pw : String)
    (hfail : P.bcryptHash (primitiveHashInput P pw) = none) :
    create_password_hash P pw =
      match P.bcryptHash (P.sha256Hex pw) with
      | some h => Except.ok h
      | none => Except.error ("password hashing failed") := by
  unfold create_password_hash
  rw [hfail]

/-- C1 amended, witness at the concrete failing input. -/
theorem hash_failure_falls_back_to_sha256_witness :
    create_password_hash nulFailPrims nulPassword =
      match nulFailPrims.bcryptHash (nulFailPrims.sha256Hex nulPassword) with
      | some h => Except.ok h
      | none => Except.error ("password hashing failed") :=
  hash_failure_falls_back_to_sha256 nulFailPrims nulPassword rfl

/-- C2: for every password whose UTF-8 encoding is strictly longer than 72
bytes, `create_password_hash` applies the SHA-256 reduction before the bcrypt
hash (the produced hash is the bcrypt hash of the hexdigest), and
`verify_password` applies the same reduction, so the round-trip
`verify_password P pw (hash)` holds, assuming the bcrypt primitive succeeds
on the 64-character hexdigest and satisfies its own round-trip contract. -/
theorem long_password_roundtrip (P : HashPrims) (pw h : String)
    (hlong : pw.utf8ByteSize > 72)
    (hhash : P.bcryptHash (P.sha256Hex pw) = some h)
    (hprim : ∀ s hs, P.bcryptHash s = some hs → P.bcryptVerify s hs = true) :
    create_password_hash P pw = Except.ok h ∧ verify_password P pw h = true := by
  have hinput : primitiveHashInput P pw = P.sha256Hex pw := by
    unfold primitiveHashInput
    rw [if_pos hlong]
  constructor
  · unfold create_password_hash
    rw [hinput, hhash]
  · unfold verify_password
    rw [if_pos hlong]
    exact hprim (P.sha256Hex pw) h hhash

/-- C2 witness: the round-trip at the concrete 73-byte password, using the
concrete primitives (whose bcrypt succeeds on the 64-byte digest). -/
theorem long_password_roundtrip_witness :
    create_password_hash nulFailPrims longPassword = Except.ok (("bc$") ++ standInDigest) ∧
    verify_password nulFailPrims longPassword (("bc$") ++ standInDigest) = true := by
  refine long_password_roundtrip nulFailPrims longPassword (("bc$") ++ standInDigest)
    (by decide) (by decide) ?_
  intro s hs heq
  have hne : ¬ (s.data.contains (Char.ofNat 0) || s.utf8ByteSize > 72) = true := by
    intro hcond
    simp only [nulFailPrims, hcond, if_true] at heq
    exact Option.noConfusion heq
  simp only [nulFailPrims, if_neg hne] at heq ⊢
  have : ("bc$") ++ s = hs := Option.some.inj heq
  simp [this]

/-- Helper: the stored password hash is unaffected by the fresh-window
counter reset. -/
theorem freshWindow_password_hash (a : Account) (now : Nat) :
    (freshWindow a now).password_hash = a.password_hash := by
  unfold freshWindow
  split <;> rfl

/-- Helper: any login attempt that reports `success` leaves the account with
`failed_count = 0` and `locked_until = none`. -/
theorem login_success_resets (P : HashPrims) (now : Nat) (a : Account) (pw : String)
    (h : (login P now a pw).2 = LoginResult.success) :
    (login P now a pw).1.failed_count = 0 ∧ (login P now a pw).1.locked_until = none := by
  cases hl : isLocked a now with
  | true =>
      exfalso
      simp [login, hl] at h
  | false =>
      cases hv : verify_password P pw (freshWindow a now).password_hash with
      | true => simp [login, hl, hv, recordSuccessfulLogin]
      | false =>
          exfalso
          simp [login, hl, hv] at h

/-- C4: from a fresh account, five consecutive failed login attempts leave
`failed_count = 5` and `locked_until = t5 + 30` minutes, and a sixth attempt
while the lock holds returns `accountLocked` with the account unchanged —
for every hasher `Q` and every supplied password `goodpw`, hence without any
credential-hash verification, even when the password is correct. -/
theorem fifth_failure_locks_and_sixth_rejected (P Q : HashPrims) (a0 : Account)
    (pw goodpw : String) (t1 t2 t3 t4 t5 t6 : Nat)
    (h0 : a0.failed_count = 0) (hl0 : a0.locked_until = none)
    (hwrong : verify_password P pw a0.password_hash = false)
    (ht6 : t6 < t5 + LOCKOUT_DURATION_MINUTES) :
    (failedAttempts P pw [t1, t2, t3, t4, t5] a0).failed_count = 5 ∧
    (failedAttempts P pw [t1, t2, t3, t4, t5] a0).locked_until
      = some (t5 + LOCKOUT_DURATION_MINUTES) ∧
    login Q t6 (failedAttempts P pw [t1, t2, t3, t4, t5] a0) goodpw
      = (failedAttempts P pw [t1, t2, t3, t4, t5] a0, LoginResult.accountLocked) := by
  obtain ⟨fc, lu, ph, ll⟩ := a0
  dsimp only at h0 hl0 hwrong
  subst h0
  subst hl0
  have hresult : failedAttempts P pw [t1, t2, t3, t4, t5] (Account.mk 0 none ph ll)
      = Account.mk 5 (some (t5 + LOCKOUT_DURATION_MINUTES)) ph ll := by
    simp [failedAttempts, login, isLocked, lockExpired, freshWindow,
      recordFailedLogin, LOCKOUT_THRESHOLD, LOCKOUT_DURATION_MINUTES, hwrong]
  rw [hresult]
  refine ⟨rfl, rfl, ?_⟩
  have hlocked : isLocked (Account.mk 5 (some (t5 + LOCKOUT_DURATION_MINUTES)) ph ll) t6
      = true := by
    simp [isLocked, ht6]
  simp [login, hlocked]

/-- C4 witness: the lockout scenario at a concrete account and hasher. -/
theorem fifth_failure_locks_and_sixth_rejected_witness :
    (failedAttempts nulFailPrims ("x") [0, 0, 0, 0, 0]
        (Account.mk 0 none ("other") none)).failed_count = 5 ∧
    (failedAttempts nulFailPrims ("x") [0, 0, 0, 0, 0]
        (Account.mk 0 none ("other") none)).locked_until
      = some (0 + LOCKOUT_DURATION_MINUTES) ∧
    login nulFailPrims 1 (failedAttempts nulFailPrims ("x") [0, 0, 0, 0, 0]
        (Account.mk 0 none ("other") none)) ("x")
      = (failedAttempts nulFailPrims ("x") [0, 0, 0, 0, 0]
          (Account.mk 0 none ("other") none), LoginResult.accountLocked) :=
  fifth_failure_locks_and_sixth_rejected nulFailPrims nulFailPrims
    (Account.mk 0 none ("other") none) ("x") ("x") 0 0 0 0 0 1
    rfl rfl (by decide) (by decide)

/-- C5: after `locked_until` has passed, a login with the correct password
succeeds and leaves `failed_count = 0` and `locked_until = none`; and in
general every login reporting `success` resets `failed_count` to 0 and
clears `locked_until`. -/
theorem expired_lock_login_succeeds_and_resets (P : HashPrims) (a : Account)
    (pw : String) (now t : Nat)
    (hlock : a.locked_until = some t) (hexp : t ≤ now)
    (hgood : verify_password P pw a.password_hash = true) :
    ((login P now a pw).2 = LoginResult.success ∧
      (login P now a pw).1.failed_count = 0 ∧
      (login P now a pw).1.locked_until = none) ∧
    ∀ (Q : HashPrims) (b : Account) (pw2 : String) (now2 : Nat),
      (login Q now2 b pw2).2 = LoginResult.success →
      (login Q now2 b pw2).1.failed_count = 0 ∧
      (login Q now2 b pw2).1.locked_until = none := by
  constructor
  · have hnl : isLocked a now = false := by
      simp [isLocked, hlock, Nat.not_lt.mpr hexp]
    have hv : verify_password P pw (freshWindow a now).password_hash = true := by
      rw [freshWindow_password_hash]
      exact hgood
    simp [login, hnl, hv, recordSuccessfulLogin]
  · intro Q b pw2 now2 hs
    exact login_success_resets Q now2 b pw2 hs

/-- C5 witness: a concrete expired-lock account and a matching password. -/
theorem expired_lock_login_succeeds_and_resets_witness :
    ((login nulFailPrims 10 (Account.mk 3 (some 10) (("bc$") ++ ("x")) none) ("x")).2
        = LoginResult.success ∧
      (login nulFailPrims 10 (Account.mk 3 (some 10) (("bc$") ++ ("x")) none) ("x")).1.failed_count
        = 0 ∧
      (login nulFailPrims 10 (Account.mk 3 (some 10) (("bc$") ++ ("x")) none) ("x")).1.locked_until
        = none) ∧
    ∀ (Q : HashPrims) (b : Account) (pw2 : String) (now2 : Nat),
      (login Q now2 b pw2).2 = LoginResult.success →
      (login Q now2 b pw2).1.failed_count = 0 ∧
      (login Q now2 b pw2).1.locked_until = none :=
  expired_lock_login_succeeds_and_resets nulFailPrims
    (Account.mk 3 (some 10) (("bc$") ++ ("x")) none) ("x") 10 10
    rfl (by decide) (by decide)

/-- C8: with the counter increment modelled as the single atomic store
mutation the spec mandates, every interleaving of two concurrent
failed-login requests against the same account increases `failed_count` by
exactly 2 — no schedule loses an increment. -/
theorem concurrent_failed_logins_add_two (a : Account) (t1 t2 : Nat) :
    ∀ sched ∈ interleavings [t1] [t2],
      (runFailedLogins sched a).failed_count = a.failed_count + 2 := by
  intro sched hmem
  have hilv : interleavings [t1] [t2] = [[t1, t2], [t2, t1]] := by
    simp [interleavings]
  rw [hilv] at hmem
  simp only [List.mem_cons, List.not_mem_nil, or_false] at hmem
  rcases hmem with rfl | rfl <;>
    simp [runFailedLogins, recordFailedLogin]

/-- C8 witness: both interleavings at a concrete account. -/
theorem concurrent_failed_logins_add_two_witness :
    (runFailedLogins [0, 1] (Account.mk 0 none ("h") none)).failed_count = 0 + 2 :=
  concurrent_failed_logins_add_two (Account.mk 0 none ("h") none) 0 1 [0, 1]
    (by simp [interleavings])

/-- Helper: the cross-row token-distinctness relation is symmetric. -/
theorem tokenRel_symm : Symmetric (fun a b : Session =>
    a.sessionToken ≠ b.sessionToken ∧ a.refreshToken ≠ b.refreshToken ∧
    a.sessionToken ≠ b.refreshToken ∧ a.refreshToken ≠ b.sessionToken) := by
  intro a b h
  exact ⟨h.1.symm, h.2.1.symm, h.2.2.2.symm, h.2.2.1.symm⟩

/-- Helper: mapping a token-preserving row update over the store keeps the
token hygiene invariant. -/
theorem tokensOk_map (st : SessionState) (f : Session → Session)
    (hf : ∀ s, (f s).sessionToken = s.sessionToken ∧ (f s).refreshToken = s.refreshToken)
    (h : TokensOk st) :
    TokensOk { sessions := st.sessions.map f, nextToken := st.nextToken } := by
  obtain ⟨hb, hp⟩ := h
  constructor
  · intro s hs
    rw [List.mem_map] at hs
    obtain ⟨x, hx, rfl⟩ := hs
    obtain ⟨h1, h2⟩ := hf x
    dsimp only
    rw [h1, h2]
    exact hb x hx
  · dsimp only
    rw [List.pairwise_map]
    refine hp.imp ?_
    intro a b hab
    obtain ⟨ha1, ha2⟩ := hf a
    obtain ⟨hb1, hb2⟩ := hf b
    rw [ha1, ha2, hb1, hb2]
    exact hab

/-- Helper: prepending a row whose two tokens are the two fresh counter
values keeps the token hygiene invariant. -/
theorem tokensOk_cons (l : List Session) (t : Nat) (n : Session)
    (hst : n.sessionToken = t) (hrt : n.refreshToken = t + 1)
    (h : TokensOk { sessions := l, nextToken := t }) :
    TokensOk { sessions := n :: l, nextToken := t + 2 } := by
  obtain ⟨hb, hp⟩ := h
  dsimp only at hb hp
  constructor
  · intro s hs
    rcases List.mem_cons.mp hs with rfl | hmem
    · dsimp only
      omega
    · have hbs := hb s hmem
      dsimp only
      omega
  · dsimp only
    rw [List.pairwise_cons]
    constructor
    · intro b hbmem
      have hbb := hb b hbmem
      refine ⟨?_, ?_, ?_, ?_⟩ <;> omega
    · exact hp

/-- Helper: every reachable session store satisfies the token hygiene
invariant. -/
theorem reachable_tokensOk (st : SessionState) (hr : Reachable st) : TokensOk st := by
  induction hr with
  | init =>
      constructor
      · intro s hs
        cases hs
      · exact List.Pairwise.nil
  | issue accountId now hprev ih =>
      simp only [issueSession]
      exact tokensOk_cons _ _ _ rfl rfl ih
  | refresh now rt hprev ih =>
      rename_i st1
      unfold refreshSession
      cases hfind : st1.sessions.find? (fun s => s.refreshToken == rt && s.isActive) with
      | none => exact ih
      | some s =>
          dsimp only
          refine tokensOk_cons _ _ _ rfl rfl ?_
          refine tokensOk_map st1 _ ?_ ih
          intro x
          constructor <;> · split <;> rfl
  | revoke tok hprev ih =>
      rename_i st1
      unfold revokeSession deactivateBySession
      refine tokensOk_map st1 _ ?_ ih
      intro x
      constructor <;> · split <;> rfl
  | touch now tok hprev ih =>
      rename_i st1
      unfold authenticate
      cases hfind : st1.sessions.find?
          (fun s => s.sessionToken == tok && s.isActive && decide (now < s.expiresAt)) with
      | none => exact ih
      | some s =>
          dsimp only
          unfold touchSessions
          refine tokensOk_map st1 _ ?_ ih
          intro x
          constructor <;> · split <;> rfl

/-- Helper: under the token hygiene invariant, the session token determines
the row. -/
theorem sessionToken_inj (st : SessionState) (h : TokensOk st) :
    ∀ x ∈ st.sessions, ∀ y ∈ st.sessions, x.sessionToken = y.sessionToken → x = y := by
  intro x hx y hy hxy
  by_contra hne
  exact (List.Pairwise.forall tokenRel_symm h.2 hx hy hne).1 hxy

/-- Helper: after a rotation of refresh token `r`, no row of the rotated
store still carries `r` as an active refresh token. -/
theorem find?_refresh_none (l : List Session) (r : Nat) (n : Session)
    (hn : n.refreshToken ≠ r) :
    (n :: deactivateByRefresh l r).find? (fun s => s.refreshToken == r && s.isActive)
      = none := by
  rw [List.find?_eq_none]
  intro x hx
  rcases List.mem_cons.mp hx with rfl | hxm
  · simp [hn]
  · unfold deactivateByRefresh at hxm
    rw [List.mem_map] at hxm
    obtain ⟨y, hy, rfl⟩ := hxm
    by_cases hyr : (y.refreshToken == r) = true
    · simp [hyr]
    · simp [hyr]

/-- Helper: after a rotation of refresh token `r`, a session token that only
the rotated row carried no longer authenticates. -/
theorem find?_auth_none (l : List Session) (r tok now3 : Nat) (n : Session)
    (hn : n.sessionToken ≠ tok)
    (hself : ∀ y ∈ l, y.sessionToken = tok → y.refreshToken = r) :
    (n :: deactivateByRefresh l r).find?
      (fun s => s.sessionToken == tok && s.isActive && decide (now3 < s.expiresAt))
      = none := by
  rw [List.find?_eq_none]
  intro x hx
  rcases List.mem_cons.mp hx with rfl | hxm
  · simp [hn]
  · unfold deactivateByRefresh at hxm
    rw [List.mem_map] at hxm
    obtain ⟨y, hy, rfl⟩ := hxm
    by_cases hyr : (y.refreshToken == r) = true
    · simp [hyr]
    · have hys : y.sessionToken ≠ tok := by
        intro habs
        exact hyr (beq_iff_eq.mpr (hself y hy habs))
      simp [hyr, hys]

/-- C3: refresh-token rotation with reuse detection — once a refresh token
`r` has been used in a successful rotation, presenting `r` again is rejected
with `invalidOrReusedToken`, and the session token of the row that carried
`r` no longer authenticates; the invalidation of the old row and the issuing
of the new pair happen in the single `refreshSession` operation. -/
theorem refresh_token_single_use (st : SessionState) (now now2 now3 r : Nat)
    (hr : Reachable st)
    (hsucc : (refreshSession st now r).2 ≠ RefreshOutcome.invalidOrReusedToken) :
    (refreshSession (refreshSession st now r).1 now2 r).2
      = RefreshOutcome.invalidOrReusedToken ∧
    ∀ s ∈ st.sessions, s.refreshToken = r →
      (authenticate (refreshSession st now r).1 now3 s.sessionToken).2 = none := by
  have hok := reachable_tokensOk st hr
  cases hfind : st.sessions.find? (fun s => s.refreshToken == r && s.isActive) with
  | none =>
      exfalso
      apply hsucc
      unfold refreshSession
      rw [hfind]
  | some s0 =>
      have hs0mem : s0 ∈ st.sessions := List.mem_of_find?_eq_some hfind
      have hs0p := List.find?_some hfind
      rw [Bool.and_eq_true, beq_iff_eq] at hs0p
      have hrlt : r < st.nextToken := hs0p.1 ▸ (hok.1 s0 hs0mem).2.1
      have hst1 : (refreshSession st now r).1 =
          { sessions := Session.mk s0.accountId st.nextToken (st.nextToken + 1) true
              (now + SESSION_LIFETIME_MINUTES) now :: deactivateByRefresh st.sessions r,
            nextToken := st.nextToken + 2 } := by
        unfold refreshSession
        rw [hfind]
      rw [hst1]
      constructor
      · unfold refreshSession
        dsimp only
        rw [find?_refresh_none st.sessions r _ (by dsimp only; omega)]
      · intro s hsmem hsrt
        have hslt : s.sessionToken < st.nextToken := (hok.1 s hsmem).1
        unfold authenticate
        dsimp only
        rw [find?_auth_none st.sessions r s.sessionToken now3 _ (by dsimp only; omega) ?hself]
        case hself =>
          intro y hy habs
          have hys : y = s := sessionToken_inj st hok y hy s hsmem habs
          rw [hys, hsrt]

/-- C3 witness: issue a session (tokens 0/1) for account 7, rotate with
refresh token 1, then observe that both a second rotation with token 1 and
authentication with the old session token fail. -/
theorem refresh_token_single_use_witness :
    (refreshSession (refreshSession demoState 1 1).1 2 1).2
      = RefreshOutcome.invalidOrReusedToken ∧
    ∀ s ∈ demoState.sessions, s.refreshToken = 1 →
      (authenticate (refreshSession demoState 1 1).1 3 s.sessionToken).2 = none :=
  refresh_token_single_use demoState 1 2 3 1
    (Reachable.issue 7 0 Reachable.init) (by decide)

/-- C6: in every reachable session store, a row that is inactive or whose
`expires_at` lies before the current time is never accepted by
`authenticate` when its session token is presented. -/
theorem inactive_or_expired_session_rejected (st : SessionState) (now : Nat) (s : Session)
    (hr : Reachable st) (hmem : s ∈ st.sessions)
    (hbad : s.isActive = false ∨ s.expiresAt < now) :
    (authenticate st now s.sessionToken).2 = none := by
  have hok := reachable_tokensOk st hr
  unfold authenticate
  cases hfind : st.sessions.find?
      (fun x => x.sessionToken == s.sessionToken && x.isActive && decide (now < x.expiresAt)) with
  | none => rfl
  | some x =>
      exfalso
      have hxmem := List.mem_of_find?_eq_some hfind
      have hxp := List.find?_some hfind
      rw [Bool.and_eq_true, Bool.and_eq_true, beq_iff_eq, decide_eq_true_eq] at hxp
      have hxs : x = s := sessionToken_inj st hok x hxmem s hmem hxp.1.1
      subst hxs
      rcases hbad with h1 | h2
      · rw [hxp.1.2] at h1
        exact Bool.noConfusion h1
      · have := hxp.2
        omega

/-- C6 witness: the session issued at time 0 (expiring at 30) is rejected
at time 31. -/
theorem inactive_or_expired_session_rejected_witness :
    (authenticate demoState 31 (Session.mk 7 0 1 true 30 0).sessionToken).2 = none :=
  inactive_or_expired_session_rejected demoState 31 (Session.mk 7 0 1 true 30 0)
    (Reachable.issue 7 0 Reachable.init) (by decide) (Or.inr (by decide))

/-- C7: a callback whose state was never issued for this client context
(`stored = none`), or does not exactly match the issued one, or has
expired, returns `invalidState`, and the result is identical for every
exchange function — no provider token exchange influences it. -/
theorem invalid_state_no_token_exchange (exchange exchange2 : String → String)
    (stored : Option StateEntry) (code state : String) (now : Nat)
    (hbad : stored = none ∨
      ∃ e, stored = some e ∧ (state ≠ e.value ∨ e.expiresAt ≤ now)) :
    externalCallback exchange stored code state now = CallbackOutcome.invalidState ∧
    externalCallback exchange stored code state now
      = externalCallback exchange2 stored code state now := by
  have hv : verifyCallbackState stored state now = false := by
    rcases hbad with rfl | ⟨e, rfl, hb⟩
    · rfl
    · unfold verifyCallbackState
      rcases hb with hb | hb
      · simp [hb]
      · simp [Nat.not_lt.mpr hb]
  unfold externalCallback
  rw [hv]
  exact ⟨rfl, rfl⟩

/-- C7 witness: a state value that was never issued, at two different
exchange functions. -/
theorem invalid_state_no_token_exchange_witness :
    externalCallback (fun c => c) none ("code") ("state") 0
      = CallbackOutcome.invalidState ∧
    externalCallback (fun c => c) none ("code") ("state") 0
      = externalCallback (fun _ => ("tok")) none ("code") ("state") 0 :=
  invalid_state_no_token_exchange (fun c => c) (fun _ => ("tok")) none
    ("code") ("state") 0 (Or.inl rfl)

/-- Helper: removing a key removes every binding of it. -/
theorem getItem_removeItem_self (store : LocalStorage) (k : String) :
    getItem (removeItem store k) k = none := by
  induction store with
  | nil => rfl
  | cons p l ih =>
      by_cases hp : (p.1 == k) = true
      · simp [removeItem, hp, ih]
      · simp [removeItem, getItem, hp, ih]

/-- Helper: removing one key leaves every other key's binding unchanged. -/
theorem getItem_removeItem_other (store : LocalStorage) (k k2 : String) (h : k2 ≠ k) :
    getItem (removeItem store k) k2 = getItem store k2 := by
  induction store with
  | nil => rfl
  | cons p l ih =>
      by_cases hp : (p.1 == k) = true
      · have hp2 : (p.1 == k2) = false := by
          rw [beq_iff_eq] at hp
          rw [beq_eq_false_iff_ne, hp]
          exact Ne.symm h
        simp [removeItem, getItem, hp, hp2, ih]
      · simp [removeItem, getItem, hp, ih]

/-- Helper: setting one key leaves every other key's binding unchanged. -/
theorem getItem_setItem_other (store : LocalStorage) (k v k2 : String) (h : k2 ≠ k) :
    getItem (setItem store k v) k2 = getItem store k2 := by
  unfold setItem
  have hk : (k == k2) = false := by
    rw [beq_eq_false_iff_ne]
    exact Ne.symm h
  simp [getItem, hk, getItem_removeItem_other store k k2 h]

/-- C9: `AuthService.logout` emits no request — so the backend store, and in
particular the `is_active` flag of every session row, is unchanged whatever
the backend transition function is — and removes exactly the localStorage
keys `access_token`, `refresh_token` and `user`, leaving every other key
untouched. -/
theorem logout_local_only (store : LocalStorage)
    (handle : SessionState → HttpRequest → SessionState) (server : SessionState) :
    (logout store).2 = [] ∧
    serverAfter handle server (logout store).2 = server ∧
    getItem (logout store).1 ("access_token") = none ∧
    getItem (logout store).1 ("refresh_token") = none ∧
    getItem (logout store).1 ("user") = none ∧
    ∀ k, k ≠ ("access_token") → k ≠ ("refresh_token") → k ≠ ("user") →
      getItem (logout store).1 k = getItem store k := by
  refine ⟨rfl, rfl, ?_, ?_, ?_, ?_⟩
  · unfold logout
    rw [getItem_removeItem_other _ _ _ (by decide),
      getItem_removeItem_other _ _ _ (by decide)]
    exact getItem_removeItem_self store ("access_token")
  · unfold logout
    rw [getItem_removeItem_other _ _ _ (by decide)]
    exact getItem_removeItem_self _ ("refresh_token")
  · exact getItem_removeItem_self _ ("user")
  · intro k h1 h2 h3
    unfold logout
    rw [getItem_removeItem_other _ _ _ h3, getItem_removeItem_other _ _ _ h2,
      getItem_removeItem_other _ _ _ h1]

/-- C9 witness: an unrelated key survives logout unchanged. -/
theorem logout_local_only_witness :
    getItem (logout [(("auth_token"), ("t")), (("access_token"), ("a"))]).1 ("auth_token")
      = getItem [(("auth_token"), ("t")), (("access_token"), ("a"))] ("auth_token") :=
  (logout_local_only [(("auth_token"), ("t")), (("access_token"), ("a"))]
    (fun s _ => s) initialSessionState).2.2.2.2.2 ("auth_token")
    (by decide) (by decide) (by decide)

/-- C10: the shared axios client attaches an Authorization header only when
localStorage holds a non-empty `auth_token`; `AuthService.storeTokens`
writes only `access_token` and `refresh_token`, so when `auth_token` was
absent before a login it is still absent after, and requests through the
client carry no Authorization header (the config passes through
unchanged). -/
theorem storeTokens_never_sets_auth_header (store : LocalStorage)
    (acc rft : String) (config : RequestConfig)
    (hnone : getItem store ("auth_token") = none) :
    (∀ (st : LocalStorage) (c : RequestConfig), requestInterceptor st c ≠ c →
      ∃ t, getItem st ("auth_token") = some t ∧ t ≠ ("")) ∧
    getItem (storeTokens store acc rft) ("auth_token") = none ∧
    requestInterceptor (storeTokens store acc rft) config = config := by
  have hkeep : getItem (storeTokens store acc rft) ("auth_token") = none := by
    unfold storeTokens
    rw [getItem_setItem_other _ _ _ _ (by decide),
      getItem_setItem_other _ _ _ _ (by decide)]
    exact hnone
  refine ⟨?_, hkeep, ?_⟩
  · intro st c hne
    unfold requestInterceptor at hne
    cases hg : getItem st ("auth_token") with
    | none =>
        rw [hg] at hne
        exact absurd rfl hne
    | some t =>
        rw [hg] at hne
        dsimp only at hne
        by_cases ht : t ≠ ("")
        · exact ⟨t, rfl, ht⟩
        · rw [if_neg ht] at hne
          exact absurd rfl hne
  · unfold requestInterceptor
    rw [hkeep]

/-- C10 witness: a login that stores both tokens into a store with no
`auth_token` leaves requests without an Authorization header. -/
theorem storeTokens_never_sets_auth_header_witness :
    getItem (storeTokens [(("user"), ("u"))] ("a1") ("r1")) ("auth_token") = none ∧
    requestInterceptor (storeTokens [(("user"), ("u"))] ("a1") ("r1"))
      (RequestConfig.mk none) = RequestConfig.mk none :=
  ⟨(storeTokens_never_sets_auth_header [(("user"), ("u"))] ("a1") ("r1")
      (RequestConfig.mk none) (by decide)).2.1,
    (storeTokens_never_sets_auth_header [(("user"), ("u"))] ("a1") ("r1")
      (RequestConfig.mk none) (by decide)).2.2⟩

end Circles
